import Mathlib

/-!
Shallow embedding of the multi-agent recommendation pipeline
(`multi_Agents/multi_agent.py`).

The pipeline is a small state machine over a `RecommendationState` record:
comparison detection, a classification gate, primary retrieval, a result
adequacy check, an optional web-search fallback, and a terminal compile
stage.  The three external collaborators (classification, primary
retrieval, web search) are modelled as oracles (`Services`): each one is a
function from the query to `Except String result`, where `.error`
models the Python code raising an exception.

Node functions mirror the Python node functions one-to-one; the driver
`run` mirrors the LangGraph wiring (entry point, conditional edges,
terminal END).  LangGraph merges the partial dict a node returns into the
state; this is modelled with `{ s with ... }` record updates.  `run` also
returns a `Trace` counting how many times each external service was
invoked (each Python node contains exactly one call site of its service,
so the counts are determined by which nodes execute).
-/

namespace MultiAgent

/-- Character-list version of `l₁ "starts with" pat`: used to build the
substring test below. -/
def leadMatch : List Char → List Char → Bool
  | [], _ => true
  | _ :: _, [] => false
  | p :: ps, c :: cs => (p == c) && leadMatch ps cs

/-- `occursIn pat l` is true iff `pat` occurs contiguously inside `l`. -/
def occursIn : List Char → List Char → Bool
  | pat, [] => pat.isEmpty
  | pat, c :: cs => leadMatch pat (c :: cs) || occursIn pat cs

/-- Python's `pat in s` substring test on strings. -/
def containsSubstr (s pat : String) : Bool :=
  occursIn pat.toList s.toList

/-- Python's `str.lower()`. -/
def lowerString (s : String) : String :=
  String.mk (s.toList.map Char.toLower)

/-- Opaque structured record: the pipeline never inspects the `Dict`
elements of `snowflake_results` / `rag_results`, so they are modelled by
an arbitrary concrete carrier. -/
abbrev Doc := String

/-- The `metadata` sub-record of a fallback web record
(`{'source': ..., 'results_analyzed': ...}`). -/
structure WebMetadata where
  source : String
  results_analyzed : Nat
deriving DecidableEq, Repr

/-- One structured web record
(`{'text': ..., 'metadata': {...}}`) built by `query_web_node`. -/
structure WebRecord where
  text : String
  metadata : WebMetadata
deriving DecidableEq, Repr

/-- Modelled from the spec: the result dictionary of the external
Classification Service (`CollegeRecommender.check_and_classify_query`,
whose source `gate_agent.py` is not in the repository snapshot).  The keys
`is_college_related`, `safety_check_passed`, `context` are read
unconditionally by `check_prompt_node`; `response` is optional text
(read with `.get("response", default)`), `none` modelling an absent key. -/
structure ClassificationResult where
  is_college_related : Bool
  safety_check_passed : Bool
  context : String
  response : Option String
deriving DecidableEq, Repr

/-- Modelled from the spec: the result dictionary of the external Primary
Retrieval Service (`validate_and_compare`, whose source
`validate_recommender.py` is not in the repository snapshot): a combined
textual summary plus two structured result sets. -/
structure PrimaryResult where
  combined_agent_results : Option String
  snowflake_results : List Doc
  rag_results : List Doc
deriving DecidableEq, Repr

/-- Modelled from the spec: the result dictionary of the external
Fallback Retrieval Service (`WebSearchRecommender.recommend`, whose
source `websearch_agent.py` is not in the repository snapshot): a single
response text plus a count of sources examined. -/
structure WebResult where
  response : String
  results_analyzed : Nat
deriving DecidableEq, Repr

/-- The three external collaborators, as oracles.  `.error msg` models
the Python call raising an exception. -/
structure Services where
  classify : String → Except String ClassificationResult
  retrieve : String → Except String PrimaryResult
  webSearch : String → Except String WebResult

/-- The compiled final output dictionary built by `compile_results`.
`fallback_message` is `Option (Option String)`: the outer layer records
whether the key is present at all (it is inserted only on the
fallback-used branch), the inner layer is the stored Python value, which
has type `Optional[str]` in the state. -/
structure FinalOutput where
  query : String
  combined_output : Option String
  snowflake : List Doc
  rag : List Doc
  web : List WebRecord
  fallback_used : Bool
  fallback_message : Option (Option String)
deriving DecidableEq, Repr

/-- The LangGraph pipeline state (`RecommendationState` TypedDict), plus
the `should_fallback` key written by `check_results_node` and read by the
conditional edge.  `fallback_used` is declared `Optional[bool]` in Python
but is initialised to `False` and only ever assigned `True`/`False`, so
it is modelled as `Bool`. -/
structure RecommendationState where
  user_query : String
  is_college_related : Bool
  is_comparison_query : Bool
  safety_check_passed : Bool
  combined_agent_results : Option String
  snowflake_results : List Doc
  rag_results : List Doc
  web_results : List WebRecord
  final_output : Option FinalOutput
  early_response : Option String
  fallback_used : Bool
  fallback_message : Option String
  should_fallback : Bool
deriving DecidableEq, Repr

/-- Count of external-service invocations made during one `run`. -/
structure Trace where
  classify_calls : Nat
  retrieve_calls : Nat
  web_calls : Nat
deriving DecidableEq, Repr

/-- The fixed comparison rejection message of `detect_comparison_node`. -/
def COMPARISON_RESPONSE : String :=
  "I specialize in college recommendations, not comparisons. Please ask about specific programs or colleges."

/-- The fixed gate rejection message of `check_prompt_node`. -/
def GATE_RESPONSE : String :=
  "Sorry I can\x27t do that. I can assist you with college recommendations."

/-- The generic error string written by `query_combined_agent_node` on a
primary-retrieval failure. -/
def PRIMARY_ERROR_MESSAGE : String :=
  "Error processing your request"

/-- The fixed explanatory string written by `query_web_node` on a
successful fallback. -/
def WEB_FALLBACK_MESSAGE : String :=
  "We\x27re using web search results as a fallback since we couldn\x27t find relevant information in our databases."

/-- The sentinel substring looked for by `check_results_node`. -/
def SENTINEL : String := "❌ No valid data found"

/-- The fixed comparison-marker keyword list of `detect_comparison_node`. -/
def comparison_keywords : List String :=
  ["compare", "vs", "versus", "difference", "better", "worse", "ranking"]

/-- `any(keyword in query_lower for keyword in comparison_keywords)`
applied to the lower-cased query. -/
def is_comparison (q : String) : Bool :=
  let query_lower := lowerString q
  comparison_keywords.any (fun keyword => containsSubstr query_lower keyword)

/-- `detect_comparison_node`: flags comparison queries and, when flagged,
stores the fixed comparison response as `early_response` (otherwise it
writes `None` over `early_response`). -/
def detect_comparison_node (s : RecommendationState) : RecommendationState :=
  let b := is_comparison s.user_query
  { s with
      is_comparison_query := b,
      early_response := if b then some COMPARISON_RESPONSE else none }

/-- `check_prompt_node` (the classification gate).  The Python body has
no `try`/`except`: an exception raised by
`college_recommender.check_and_classify_query` propagates, which is the
`.error` case here.  `classification.get("response", STANDARD_RESPONSE)`
is modelled by `c.response.getD GATE_RESPONSE` (`none` = key absent). -/
def check_prompt_node (svc : Services) (s : RecommendationState) :
    Except String RecommendationState :=
  if s.is_comparison_query then
    .ok { s with
      is_college_related := false,
      safety_check_passed := false,
      early_response := some (s.early_response.getD GATE_RESPONSE) }
  else
    match svc.classify s.user_query with
    | .error e => .error e
    | .ok c =>
      if c.context ≠ "college" then
        .ok { s with
          is_college_related := false,
          safety_check_passed := c.safety_check_passed,
          early_response := some (c.response.getD GATE_RESPONSE) }
      else
        .ok { s with
          is_college_related := true,
          safety_check_passed := true }

/-- `query_combined_agent_node` (primary retrieval).  Everything in the
`try` block is covered by the `except`: a failure of the service call
itself takes the failure branch, and so does a service success whose
`combined_agent_results` is `None` — the logging line
`len(result.get('combined_agent_results', ''))` then raises `TypeError`
(`.get` returns the stored `None`, not the `''` default, when the key is
present) before the success `return` is reached.  Either way the node
degrades to empty results with `fallback_used = true` and the generic
error message; only a success with a non-null combined summary reaches
the success branch. -/
def query_combined_agent_node (svc : Services) (s : RecommendationState) :
    RecommendationState :=
  match svc.retrieve s.user_query with
  | .ok result =>
    match result.combined_agent_results with
    | some t =>
      { s with
          combined_agent_results := some t,
          snowflake_results := result.snowflake_results,
          rag_results := result.rag_results,
          fallback_used := false }
    | none =>
      { s with
          combined_agent_results := none,
          snowflake_results := [],
          rag_results := [],
          fallback_used := true,
          fallback_message := some PRIMARY_ERROR_MESSAGE }
  | .error _ =>
    { s with
        combined_agent_results := none,
        snowflake_results := [],
        rag_results := [],
        fallback_used := true,
        fallback_message := some PRIMARY_ERROR_MESSAGE }

/-- `check_results_node` (result adequacy check).  Python truthiness:
`state.get('combined_agent_results')` is truthy iff it is a non-empty
string, and `not state.get(...)` on the lists is emptiness. -/
def check_results_node (s : RecommendationState) : RecommendationState :=
  let no_data := s.snowflake_results.isEmpty && s.rag_results.isEmpty
  let combined_empty :=
    match s.combined_agent_results with
    | none => false
    | some t => (!(t == "")) && containsSubstr t SENTINEL
  { s with should_fallback := no_data || combined_empty }

/-- `query_web_node` (fallback retrieval).  On success: exactly one
structured record tagged `source = "web_search_fallback"`,
`fallback_used = true`, and the fixed explanatory message.  On failure:
empty `web_results` and `fallback_used = false`; note that
`fallback_message` is NOT written on the failure branch, so a value set
earlier (by a failing primary stage) survives in the state. -/
def query_web_node (svc : Services) (s : RecommendationState) :
    RecommendationState :=
  match svc.webSearch s.user_query with
  | .ok result =>
    { s with
        web_results := [{ text := result.response,
                          metadata := { source := "web_search_fallback",
                                        results_analyzed := result.results_analyzed } }],
        fallback_used := true,
        fallback_message := some WEB_FALLBACK_MESSAGE }
  | .error _ =>
    { s with
        web_results := [],
        fallback_used := false }

/-- `compile_results` (terminal compile stage).  All state keys are
present in the LangGraph state (the initial state sets every channel), so
the Python `.get(key, default)` accesses read the stored values; in
particular `state.get('fallback_message', '')` yields the stored
`Optional[str]` value, modelled by `some s.fallback_message`. -/
def compile_results (s : RecommendationState) : RecommendationState :=
  let output : FinalOutput :=
    if s.fallback_used then
      { query := s.user_query,
        combined_output := s.combined_agent_results,
        snowflake := s.snowflake_results,
        rag := s.rag_results,
        web := s.web_results,
        fallback_used := true,
        fallback_message := some s.fallback_message }
    else
      { query := s.user_query,
        combined_output := s.combined_agent_results,
        snowflake := s.snowflake_results,
        rag := s.rag_results,
        web := [],
        fallback_used := false,
        fallback_message := none }
  { s with final_output := some output }

/-- The initial pipeline state built for one invocation (mirrors the
initial dict passed to `app.ainvoke`). -/
def initialState (query : String) : RecommendationState :=
  { user_query := query,
    is_college_related := false,
    is_comparison_query := false,
    safety_check_passed := false,
    combined_agent_results := none,
    snowflake_results := [],
    rag_results := [],
    web_results := [],
    final_output := none,
    early_response := none,
    fallback_used := false,
    fallback_message := none,
    should_fallback := false }

/-- The compiled LangGraph workflow: entry point `detect_comparison`;
conditional edge to END when `is_comparison_query`; gatekeeper with
conditional edge to END when `not is_college_related or not
safety_check_passed`; `combined_agent` then `check_results`; conditional
edge to `web` when `should_fallback` else `compile`; `web → compile`;
`compile → END`.  The `Trace` component counts service invocations:
the comparison early exit calls no service; the gate calls `classify`
once; the primary stage calls `retrieve` once; the fallback stage calls
`webSearch` once.  A `.error` outcome models an exception reaching the
caller of `app.ainvoke`. -/
def run (svc : Services) (query : String) :
    Except String (RecommendationState × Trace) :=
  let s1 := detect_comparison_node (initialState query)
  if s1.is_comparison_query then
    .ok (s1, ⟨0, 0, 0⟩)
  else
    match check_prompt_node svc s1 with
    | .error e => .error e
    | .ok s2 =>
      if !s2.is_college_related || !s2.safety_check_passed then
        .ok (s2, ⟨1, 0, 0⟩)
      else
        let s3 := query_combined_agent_node svc s2
        let s4 := check_results_node s3
        if s4.should_fallback then
          .ok (compile_results (query_web_node svc s4), ⟨1, 1, 1⟩)
        else
          .ok (compile_results s4, ⟨1, 1, 0⟩)

/-! ### Concrete oracles used by witnesses and counterexamples -/

/-- A classification accepting the query as college-related. -/
def okClassification : ClassificationResult :=
  { is_college_related := true, safety_check_passed := true,
    context := "college", response := none }

/-- All three services succeed; primary retrieval returns a non-empty
snowflake set and no sentinel. -/
def svcAllOk : Services :=
  { classify := fun _ => .ok okClassification,
    retrieve := fun _ => .ok { combined_agent_results := some "Top programs listed",
                               snowflake_results := ["snowflake row"],
                               rag_results := [] },
    webSearch := fun _ => .ok { response := "web answer", results_analyzed := 3 } }

/-- The classification service raises a transport error. -/
def svcClassifyFails : Services :=
  { classify := fun _ => .error "transport error",
    retrieve := fun _ => .ok { combined_agent_results := some "Top programs listed",
                               snowflake_results := ["snowflake row"],
                               rag_results := [] },
    webSearch := fun _ => .ok { response := "web answer", results_analyzed := 3 } }

/-- Classification succeeds, primary retrieval raises, web search
succeeds. -/
def svcPrimaryFails : Services :=
  { classify := fun _ => .ok okClassification,
    retrieve := fun _ => .error "primary down",
    webSearch := fun _ => .ok { response := "web answer", results_analyzed := 3 } }

/-- Classification succeeds, primary retrieval raises, web search also
raises. -/
def svcBothFail : Services :=
  { classify := fun _ => .ok okClassification,
    retrieve := fun _ => .error "primary down",
    webSearch := fun _ => .error "web down" }

/-- Classification rejects the query as out of domain. -/
def svcReject : Services :=
  { classify := fun _ => .ok { is_college_related := false,
                               safety_check_passed := true,
                               context := "other",
                               response := some "Out of scope" },
    retrieve := fun _ => .error "unused",
    webSearch := fun _ => .error "unused" }

/-- Primary retrieval returns normally but with a null combined summary
and a non-empty snowflake set (the input exercising the `TypeError` path
of `query_combined_agent_node`). -/
def svcNullSummary : Services :=
  { classify := fun _ => .ok okClassification,
    retrieve := fun _ => .ok { combined_agent_results := none,
                               snowflake_results := ["snowflake row"],
                               rag_results := [] },
    webSearch := fun _ => .ok { response := "web answer", results_analyzed := 3 } }

/-- Terminal state of `run svcAllOk "mba"`. -/
def stAllOk : RecommendationState :=
  { user_query := "mba",
    is_college_related := true,
    is_comparison_query := false,
    safety_check_passed := true,
    combined_agent_results := some "Top programs listed",
    snowflake_results := ["snowflake row"],
    rag_results := [],
    web_results := [],
    final_output := some { query := "mba",
                           combined_output := some "Top programs listed",
                           snowflake := ["snowflake row"],
                           rag := [],
                           web := [],
                           fallback_used := false,
                           fallback_message := none },
    early_response := none,
    fallback_used := false,
    fallback_message := none,
    should_fallback := false }

/-- Terminal state of `run svcPrimaryFails "mba"`. -/
def stPrimaryFails : RecommendationState :=
  { user_query := "mba",
    is_college_related := true,
    is_comparison_query := false,
    safety_check_passed := true,
    combined_agent_results := none,
    snowflake_results := [],
    rag_results := [],
    web_results := [{ text := "web answer",
                      metadata := { source := "web_search_fallback",
                                    results_analyzed := 3 } }],
    final_output := some { query := "mba",
                           combined_output := none,
                           snowflake := [],
                           rag := [],
                           web := [{ text := "web answer",
                                     metadata := { source := "web_search_fallback",
                                                   results_analyzed := 3 } }],
                           fallback_used := true,
                           fallback_message := some (some WEB_FALLBACK_MESSAGE) },
    early_response := none,
    fallback_used := true,
    fallback_message := some WEB_FALLBACK_MESSAGE,
    should_fallback := true }

/-- Terminal state of `run svcBothFail "mba"`. -/
def stBothFail : RecommendationState :=
  { user_query := "mba",
    is_college_related := true,
    is_comparison_query := false,
    safety_check_passed := true,
    combined_agent_results := none,
    snowflake_results := [],
    rag_results := [],
    web_results := [],
    final_output := some { query := "mba",
                           combined_output := none,
                           snowflake := [],
                           rag := [],
                           web := [],
                           fallback_used := false,
                           fallback_message := none },
    early_response := none,
    fallback_used := false,
    fallback_message := some PRIMARY_ERROR_MESSAGE,
    should_fallback := true }

/-- Terminal state of `run svcReject "mba"`. -/
def stReject : RecommendationState :=
  { user_query := "mba",
    is_college_related := false,
    is_comparison_query := false,
    safety_check_passed := true,
    combined_agent_results := none,
    snowflake_results := [],
    rag_results := [],
    web_results := [],
    final_output := none,
    early_response := some "Out of scope",
    fallback_used := false,
    fallback_message := none,
    should_fallback := false }

/-! ### Helper lemmas -/

/-- The sentinel does not occur in the empty string. -/
theorem sentinel_not_in_empty : containsSubstr "" SENTINEL = false := by decide

/-- The adequacy check sets `should_fallback` exactly when both result
sets are empty or the combined summary is present and carries the
sentinel. -/
theorem check_results_spec (s : RecommendationState) :
    (check_results_node s).should_fallback = true ↔
      ((s.snowflake_results = [] ∧ s.rag_results = []) ∨
       (∃ t, s.combined_agent_results = some t ∧ containsSubstr t SENTINEL = true)) := by
  simp only [check_results_node]
  rcases hc : s.combined_agent_results with _ | t
  · cases hs : s.snowflake_results <;> cases hr : s.rag_results <;>
      simp [hs, hr]
  · by_cases ht : t = ""
    · subst ht
      cases hs : s.snowflake_results <;> cases hr : s.rag_results <;>
        simp [hs, hr, sentinel_not_in_empty]
    · cases hs : s.snowflake_results <;> cases hr : s.rag_results <;>
        simp [hs, hr, ht]

/-- The classification gate propagates exactly the classification
service's exceptions (for non-comparison states, the only ones the
workflow routes to it). -/
theorem check_prompt_error_iff (svc : Services) (s : RecommendationState)
    (e : String) (h : s.is_comparison_query = false) :
    check_prompt_node svc s = .error e ↔
      svc.classify s.user_query = .error e := by
  simp only [check_prompt_node, h]
  cases hc : svc.classify s.user_query with
  | error e₂ => simp
  | ok c =>
    by_cases hctx : c.context ≠ "college" <;> simp [hctx]

/-- Neither `query_web_node` nor `compile_results` changes
`should_fallback`. -/
theorem should_fallback_preserved (svc : Services) (s : RecommendationState) :
    (compile_results (query_web_node svc s)).should_fallback = s.should_fallback ∧
    (compile_results s).should_fallback = s.should_fallback := by
  constructor
  · cases hw : svc.webSearch s.user_query <;>
      simp [compile_results, query_web_node, hw]
  · simp [compile_results]

/-- The primary stage never touches the query, the early response or the
final output, whichever branch it takes. -/
theorem primary_preserves (svc : Services) (s : RecommendationState) :
    (query_combined_agent_node svc s).user_query = s.user_query ∧
    (query_combined_agent_node svc s).early_response = s.early_response ∧
    (query_combined_agent_node svc s).final_output = s.final_output := by
  cases hr : svc.retrieve s.user_query with
  | error e => simp [query_combined_agent_node, hr]
  | ok r =>
    cases hcar : r.combined_agent_results <;>
      simp [query_combined_agent_node, hr, hcar]

/-- A successful gate call preserves the query, the fallback bookkeeping
and the outputs, whatever branch it took. -/
theorem gate_preserves (svc : Services) (s s2 : RecommendationState)
    (h : check_prompt_node svc s = .ok s2) :
    s2.user_query = s.user_query ∧ s2.fallback_used = s.fallback_used ∧
    s2.final_output = s.final_output ∧
    s2.should_fallback = s.should_fallback := by
  simp only [check_prompt_node] at h
  split at h
  · have h2 := (Except.ok.inj h).symm
    subst h2
    exact ⟨rfl, rfl, rfl, rfl⟩
  · split at h
    · exact absurd h (by simp)
    · split at h
      · have h2 := (Except.ok.inj h).symm
        subst h2
        exact ⟨rfl, rfl, rfl, rfl⟩
      · have h2 := (Except.ok.inj h).symm
        subst h2
        exact ⟨rfl, rfl, rfl, rfl⟩

/-- Case analysis of a successful gate call on a non-comparison state:
either the classification accepted and the gate only set the two flags,
or the gate rejected and stored a response. -/
theorem gate_ok_cases (svc : Services) (s s2 : RecommendationState)
    (h : check_prompt_node svc s = .ok s2) (hcomp : s.is_comparison_query = false) :
    (s2 = { s with is_college_related := true, safety_check_passed := true }) ∨
    (s2.early_response.isSome = true ∧ s2.is_college_related = false ∧
     s2.final_output = s.final_output) := by
  simp only [check_prompt_node] at h
  rw [if_neg (by simp [hcomp])] at h
  cases hc : svc.classify s.user_query with
  | error e =>
    rw [hc] at h
    exact absurd h (by simp)
  | ok c =>
    rw [hc] at h
    by_cases hctx : c.context = "college"
    · left
      simp only [hctx, ne_eq, not_true_eq_false, if_false, Except.ok.injEq] at h
      exact h.symm
    · right
      simp only [hctx, ne_eq, not_false_eq_true, if_true, Except.ok.injEq] at h
      subst h
      exact ⟨rfl, rfl, rfl⟩

/-- On the in-domain primary-failure path, a succeeding fallback yields
this exact terminal state and one invocation of each service. -/
theorem run_primary_fail_web_ok (svc : Services) (q : String)
    (c : ClassificationResult) (e : String) (r : WebResult)
    (hcomp : is_comparison q = false) (hc : svc.classify q = .ok c)
    (hctx : c.context = "college") (he : svc.retrieve q = .error e)
    (hw : svc.webSearch q = .ok r) :
    run svc q = .ok
      ({ user_query := q, is_college_related := true,
         is_comparison_query := false, safety_check_passed := true,
         combined_agent_results := none, snowflake_results := [],
         rag_results := [],
         web_results := [{ text := r.response,
                           metadata := { source := "web_search_fallback",
                                         results_analyzed := r.results_analyzed } }],
         final_output := some
           { query := q, combined_output := none, snowflake := [], rag := [],
             web := [{ text := r.response,
                       metadata := { source := "web_search_fallback",
                                     results_analyzed := r.results_analyzed } }],
             fallback_used := true,
             fallback_message := some (some WEB_FALLBACK_MESSAGE) },
         early_response := none, fallback_used := true,
         fallback_message := some WEB_FALLBACK_MESSAGE,
         should_fallback := true }, ⟨1, 1, 1⟩) := by
  simp [run, initialState, detect_comparison_node, hcomp, check_prompt_node,
        hc, hctx, query_combined_agent_node, he, check_results_node,
        query_web_node, hw, compile_results]

/-- On the in-domain primary-failure path, a failing fallback yields
this exact terminal state: `fallback_used` ends up false and the
compiled output carries no fallback message. -/
theorem run_primary_fail_web_err (svc : Services) (q : String)
    (c : ClassificationResult) (e e₂ : String)
    (hcomp : is_comparison q = false) (hc : svc.classify q = .ok c)
    (hctx : c.context = "college") (he : svc.retrieve q = .error e)
    (hw : svc.webSearch q = .error e₂) :
    run svc q = .ok
      ({ user_query := q, is_college_related := true,
         is_comparison_query := false, safety_check_passed := true,
         combined_agent_results := none, snowflake_results := [],
         rag_results := [], web_results := [],
         final_output := some
           { query := q, combined_output := none, snowflake := [], rag := [],
             web := [], fallback_used := false, fallback_message := none },
         early_response := none, fallback_used := false,
         fallback_message := some PRIMARY_ERROR_MESSAGE,
         should_fallback := true }, ⟨1, 1, 1⟩) := by
  simp [run, initialState, detect_comparison_node, hcomp, check_prompt_node,
        hc, hctx, query_combined_agent_node, he, check_results_node,
        query_web_node, hw, compile_results]

/-! ### Claim theorems -/

/-- C1 counterexample: with a classification service that raises a
transport error, `run` on an ordinary (non-comparison) query propagates
the exception to the caller instead of returning an out-of-domain early
response. -/
theorem C1_counterexample :
    run svcClassifyFails "mba" = .error "transport error" := by rfl

/-- C1 amended: `run` propagates an exception exactly when the query is
not a comparison and the Classification Service raises; for every other
service behaviour (including Primary and Fallback Retrieval failures)
`run` returns a well-formed result. -/
theorem C1_gate_error_boundary (svc : Services) (q : String) (e : String) :
    run svc q = .error e ↔
      (is_comparison q = false ∧ svc.classify q = .error e) := by
  constructor
  · intro h
    simp only [run] at h
    split at h
    · exact absurd h (by simp)
    · rename_i hcomp
      simp only [Bool.not_eq_true] at hcomp
      split at h
      · rename_i e₂ heq
        simp only [Except.error.injEq] at h
        subst h
        have hq : is_comparison q = false := hcomp
        exact ⟨hq, (check_prompt_error_iff svc _ e₂ hcomp).mp heq⟩
      · split at h
        · exact absurd h (by simp)
        · split at h <;> exact absurd h (by simp)
  · rintro ⟨hcomp, hcls⟩
    have h1 : (detect_comparison_node (initialState q)).is_comparison_query = false :=
      hcomp
    have h2 : check_prompt_node svc (detect_comparison_node (initialState q)) =
        .error e := (check_prompt_error_iff svc _ e h1).mpr hcls
    simp only [run]
    rw [if_neg (by simp [h1]), h2]

/-- C6 counterexample: in-domain query, primary retrieval raises, web
search succeeds — `run` terminates with `fallback_used = true` but the
compiled `fallback_message` is the fixed web-fallback explanation, not
the generic error string set by the Primary Retrieval stage. -/
theorem C6_counterexample :
    run svcPrimaryFails "mba" = .ok (stPrimaryFails, ⟨1, 1, 1⟩) ∧
    stPrimaryFails.final_output.map FinalOutput.fallback_message =
      some (some (some WEB_FALLBACK_MESSAGE)) ∧
    WEB_FALLBACK_MESSAGE ≠ PRIMARY_ERROR_MESSAGE :=
  ⟨rfl, rfl, by decide⟩

/-- C6 amended: when the primary retrieval raises on an in-domain
non-comparison query, the Fallback Retrieval Service is invoked exactly
once; if it succeeds the final output has `fallback_used = true` and the
fixed web-fallback message, and if it fails the final output has
`fallback_used = false` and no fallback message. -/
theorem C6_primary_failure_path (svc : Services) (q : String)
    (hcomp : is_comparison q = false)
    (hclass : ∃ c, svc.classify q = .ok c ∧ c.context = "college")
    (hretr : ∃ e, svc.retrieve q = .error e) :
    ∃ st tr, run svc q = .ok (st, tr) ∧ tr.web_calls = 1 ∧
      ∃ out, st.final_output = some out ∧
        ((∃ r, svc.webSearch q = .ok r ∧ out.fallback_used = true ∧
               out.fallback_message = some (some WEB_FALLBACK_MESSAGE)) ∨
         (∃ e₂, svc.webSearch q = .error e₂ ∧ out.fallback_used = false ∧
                out.fallback_message = none)) := by
  obtain ⟨c, hc, hctx⟩ := hclass
  obtain ⟨e, he⟩ := hretr
  rcases hw : svc.webSearch q with e₂ | r
  · exact ⟨_, _, run_primary_fail_web_err svc q c e e₂ hcomp hc hctx he hw,
      rfl, _, rfl, Or.inr ⟨e₂, rfl, rfl, rfl⟩⟩
  · exact ⟨_, _, run_primary_fail_web_ok svc q c e r hcomp hc hctx he hw,
      rfl, _, rfl, Or.inl ⟨r, rfl, rfl, rfl⟩⟩

/-- C6 witness: with the concrete failing-primary services, the fallback
runs once, succeeds, and the compiled output carries the web-fallback
message. -/
theorem C6_primary_failure_path_witness :
    ∃ st tr, run svcPrimaryFails "mba" = .ok (st, tr) ∧ tr.web_calls = 1 ∧
      ∃ out, st.final_output = some out ∧
        ((∃ r, svcPrimaryFails.webSearch "mba" = .ok r ∧
               out.fallback_used = true ∧
               out.fallback_message = some (some WEB_FALLBACK_MESSAGE)) ∨
         (∃ e₂, svcPrimaryFails.webSearch "mba" = .error e₂ ∧
                out.fallback_used = false ∧
                out.fallback_message = none)) :=
  C6_primary_failure_path svcPrimaryFails "mba" (by decide)
    ⟨okClassification, rfl, rfl⟩ ⟨"primary down", rfl⟩

/-- C7: every terminating run ends with exactly one of `early_response`
and `final_output` non-null. -/
theorem C7_exclusive_result (svc : Services) (q : String)
    (st : RecommendationState) (tr : Trace)
    (h : run svc q = .ok (st, tr)) :
    st.early_response.isSome = !st.final_output.isSome := by
  simp only [run] at h
  split at h
  · rename_i hcomp
    simp only [Except.ok.injEq, Prod.mk.injEq] at h
    obtain ⟨h1, h2⟩ := h
    subst h1
    have hq : is_comparison q = true := hcomp
    simp [detect_comparison_node, initialState, hq]
  · rename_i hcomp
    simp only [Bool.not_eq_true] at hcomp
    have hq : is_comparison q = false := hcomp
    split at h
    · exact absurd h (by simp)
    · rename_i s2 heq
      rcases gate_ok_cases svc _ s2 heq hcomp with hacc | ⟨her, hicr, hfo⟩
      · split at h
        · rename_i hguard
          subst hacc
          simp at hguard
        · split at h
          · simp only [Except.ok.injEq, Prod.mk.injEq] at h
            obtain ⟨h1, h2⟩ := h
            subst h1
            subst hacc
            cases hw : svc.webSearch q <;>
              simp [check_results_node, query_web_node, compile_results,
                    primary_preserves, detect_comparison_node, initialState,
                    hq, hw]
          · simp only [Except.ok.injEq, Prod.mk.injEq] at h
            obtain ⟨h1, h2⟩ := h
            subst h1
            subst hacc
            simp [check_results_node, compile_results, primary_preserves,
                  detect_comparison_node, initialState, hq]
      · split at h
        · simp only [Except.ok.injEq, Prod.mk.injEq] at h
          obtain ⟨h1, h2⟩ := h
          subst h1
          rw [her, hfo]
          simp [detect_comparison_node, initialState]
        · rename_i hguard
          simp only [Bool.not_eq_true, Bool.or_eq_false_iff,
            Bool.not_eq_false] at hguard
          rw [hicr] at hguard
          simp at hguard

/-- C7 witness: a run rejected by the classification gate terminates
with an early response and no final output. -/
theorem C7_exclusive_result_witness :
    stReject.early_response.isSome = !stReject.final_output.isSome :=
  C7_exclusive_result svcReject "mba" stReject ⟨1, 0, 0⟩ (by rfl)

/-- C8 counterexample: primary retrieval fails and the fallback service
also fails — the fallback path executed (one web-service call) and the
primary stage failed, yet the terminal `fallback_used` is false. -/
theorem C8_counterexample :
    run svcBothFail "mba" = .ok (stBothFail, ⟨1, 1, 1⟩) ∧
    svcBothFail.retrieve "mba" = .error "primary down" ∧
    stBothFail.fallback_used = false :=
  ⟨rfl, rfl, rfl⟩

/-- C8 amended: `fallback_used` starts false and is true at termination
iff the fallback stage executed and its service succeeded. -/
theorem C8_fallback_used_invariant (svc : Services) (q : String)
    (st : RecommendationState) (tr : Trace)
    (h : run svc q = .ok (st, tr)) :
    (initialState q).fallback_used = false ∧
    (st.fallback_used = true ↔
      (tr.web_calls = 1 ∧ ∃ r, svc.webSearch q = .ok r)) := by
  refine ⟨rfl, ?_⟩
  simp only [run] at h
  split at h
  · simp only [Except.ok.injEq, Prod.mk.injEq] at h
    obtain ⟨h1, h2⟩ := h
    subst h1
    subst h2
    simp [detect_comparison_node, initialState]
  · rename_i hcomp
    simp only [Bool.not_eq_true] at hcomp
    split at h
    · exact absurd h (by simp)
    · rename_i s2 heq
      have hpres := gate_preserves svc _ s2 heq
      have huq2 : s2.user_query = q := hpres.1
      split at h
      · simp only [Except.ok.injEq, Prod.mk.injEq] at h
        obtain ⟨h1, h2⟩ := h
        subst h1
        subst h2
        simp [hpres.2.1, detect_comparison_node, initialState]
      · have huq : (check_results_node
            (query_combined_agent_node svc s2)).user_query = s2.user_query := by
          simp [check_results_node, primary_preserves]
        split at h
        · simp only [Except.ok.injEq, Prod.mk.injEq] at h
          obtain ⟨h1, h2⟩ := h
          subst h1
          subst h2
          cases hw : svc.webSearch q <;>
            simp [compile_results, query_web_node, huq, huq2, hw]
        · rename_i hnfb
          simp only [Except.ok.injEq, Prod.mk.injEq] at h
          obtain ⟨h1, h2⟩ := h
          subst h1
          subst h2
          cases hr : svc.retrieve s2.user_query with
          | error e =>
            exact absurd (by simp [check_results_node,
              query_combined_agent_node, hr] :
              (check_results_node
                (query_combined_agent_node svc s2)).should_fallback = true)
              hnfb
          | ok r =>
            cases hcar : r.combined_agent_results with
            | none =>
              exact absurd (by simp [check_results_node,
                query_combined_agent_node, hr, hcar] :
                (check_results_node
                  (query_combined_agent_node svc s2)).should_fallback = true)
                hnfb
            | some t =>
              simp [compile_results, check_results_node,
                    query_combined_agent_node, hr, hcar]

/-- C8 witness: a run whose fallback stage executed and succeeded
terminates with `fallback_used = true`, matching the amended
biconditional at a concrete input. -/
theorem C8_fallback_used_invariant_witness :
    (initialState "mba").fallback_used = false ∧
    (stPrimaryFails.fallback_used = true ↔
      ((⟨1, 1, 1⟩ : Trace).web_calls = 1 ∧
       ∃ r, svcPrimaryFails.webSearch "mba" = .ok r)) :=
  C8_fallback_used_invariant svcPrimaryFails "mba" stPrimaryFails ⟨1, 1, 1⟩
    (by rfl)

/-- C9: `run` is deterministic — two terminating invocations with the
same query and the same service oracles yield identical states, in
particular identical `final_output`. -/
theorem C9_deterministic (svc : Services) (q : String)
    (st st' : RecommendationState) (tr tr' : Trace)
    (h : run svc q = .ok (st, tr)) (h' : run svc q = .ok (st', tr')) :
    st = st' ∧ st.final_output = st'.final_output := by
  have heq := h.symm.trans h'
  simp only [Except.ok.injEq, Prod.mk.injEq] at heq
  obtain ⟨h1, _⟩ := heq
  exact ⟨h1, by rw [h1]⟩

/-- C9 witness: two runs on the all-services-succeed oracle agree. -/
theorem C9_deterministic_witness :
    stAllOk = stAllOk ∧ stAllOk.final_output = stAllOk.final_output :=
  C9_deterministic svcAllOk "mba" stAllOk stAllOk ⟨1, 1, 0⟩ ⟨1, 1, 0⟩
    (by rfl) (by rfl)

/-- C2: the Result Adequacy Check sets `should_fallback` to true iff
both primary result sets are empty or `combined_agent_results` is
non-null and contains the sentinel substring; and whenever a run
terminates with `should_fallback = false`, the Fallback Retrieval
Service was never invoked. -/
theorem C2_adequacy_check :
    (∀ s : RecommendationState,
      (check_results_node s).should_fallback = true ↔
        ((s.snowflake_results = [] ∧ s.rag_results = []) ∨
         (∃ t, s.combined_agent_results = some t ∧
               containsSubstr t SENTINEL = true))) ∧
    (∀ (svc : Services) (q : String) (st : RecommendationState) (tr : Trace),
      run svc q = .ok (st, tr) → st.should_fallback = false →
        tr.web_calls = 0) := by
  constructor
  · exact check_results_spec
  · intro svc q st tr h hsf
    simp only [run] at h
    split at h
    · simp only [Except.ok.injEq, Prod.mk.injEq] at h
      obtain ⟨h1, h2⟩ := h
      subst h2
      rfl
    · split at h
      · exact absurd h (by simp)
      · split at h
        · simp only [Except.ok.injEq, Prod.mk.injEq] at h
          obtain ⟨h1, h2⟩ := h
          subst h2
          rfl
        · split at h
          · simp only [Except.ok.injEq, Prod.mk.injEq] at h
            obtain ⟨h1, h2⟩ := h
            subst h1
            rw [(should_fallback_preserved svc _).1] at hsf
            simp_all
          · simp only [Except.ok.injEq, Prod.mk.injEq] at h
            obtain ⟨h1, h2⟩ := h
            subst h2
            rfl

/-- C2 witness: a run where primary retrieval succeeds with a non-empty
set and no sentinel terminates with `should_fallback = false` and zero
fallback-service invocations. -/
theorem C2_adequacy_check_witness :
    (⟨1, 1, 0⟩ : Trace).web_calls = 0 :=
  C2_adequacy_check.2 svcAllOk "mba" stAllOk ⟨1, 1, 0⟩ (by rfl) (by rfl)

/-- C3: a query containing a comparison marker (case-insensitive
substring) exits early with the fixed comparison message, no
`final_output`, and zero invocations of any external service. -/
theorem C3_comparison_early_exit (svc : Services) (q : String)
    (h : is_comparison q = true) :
    ∃ st, run svc q = .ok (st, (⟨0, 0, 0⟩ : Trace)) ∧
      st.early_response = some COMPARISON_RESPONSE ∧
      st.final_output = none := by
  have hq : (detect_comparison_node (initialState q)).is_comparison_query = true := h
  refine ⟨detect_comparison_node (initialState q), ?_, ?_, rfl⟩
  · simp only [run, hq, if_true]
  · simp only [detect_comparison_node, initialState]
    simp only [show is_comparison q = true from h]
    rfl

/-- C3 witness: "stanford vs mit" matches the marker "vs" and exits
early with the fixed message and no service calls. -/
theorem C3_comparison_early_exit_witness :
    ∃ st, run svcAllOk "stanford vs mit" = .ok (st, (⟨0, 0, 0⟩ : Trace)) ∧
      st.early_response = some COMPARISON_RESPONSE ∧
      st.final_output = none :=
  C3_comparison_early_exit svcAllOk "stanford vs mit" (by decide)

/-- C4 counterexample: the Primary Retrieval Service returns normally
with a null combined summary and a non-empty snowflake set, yet the
stage does not populate the result sets or clear `fallback_used` — the
logging line raises `TypeError` on `len(None)` inside the `try`, so the
node takes its failure branch. -/
theorem C4_counterexample :
    svcNullSummary.retrieve "mba" =
      .ok { combined_agent_results := none,
            snowflake_results := ["snowflake row"],
            rag_results := [] } ∧
    (query_combined_agent_node svcNullSummary
      (initialState "mba")).snowflake_results = [] ∧
    (query_combined_agent_node svcNullSummary
      (initialState "mba")).fallback_used = true :=
  ⟨rfl, rfl, rfl⟩

/-- C4 amended: on a primary-retrieval failure — the service raising, or
the service returning a null combined summary, which makes the node's
logging raise `TypeError` inside the `try` — the stage nulls the
combined summary, empties both result sets, sets `fallback_used = true`
with the generic error message, and the subsequent adequacy check routes
to fallback; on a success with a non-null combined summary the stage
copies the service's three fields and sets `fallback_used = false`. -/
theorem C4_primary_retrieval_amended (svc : Services) (s : RecommendationState) :
    (∀ e, svc.retrieve s.user_query = .error e →
      ((query_combined_agent_node svc s).combined_agent_results = none ∧
       (query_combined_agent_node svc s).snowflake_results = [] ∧
       (query_combined_agent_node svc s).rag_results = [] ∧
       (query_combined_agent_node svc s).fallback_used = true ∧
       (query_combined_agent_node svc s).fallback_message =
         some PRIMARY_ERROR_MESSAGE ∧
       (check_results_node
         (query_combined_agent_node svc s)).should_fallback = true)) ∧
    (∀ r, svc.retrieve s.user_query = .ok r →
      r.combined_agent_results = none →
      ((query_combined_agent_node svc s).combined_agent_results = none ∧
       (query_combined_agent_node svc s).snowflake_results = [] ∧
       (query_combined_agent_node svc s).rag_results = [] ∧
       (query_combined_agent_node svc s).fallback_used = true ∧
       (query_combined_agent_node svc s).fallback_message =
         some PRIMARY_ERROR_MESSAGE ∧
       (check_results_node
         (query_combined_agent_node svc s)).should_fallback = true)) ∧
    (∀ r t, svc.retrieve s.user_query = .ok r →
      r.combined_agent_results = some t →
      ((query_combined_agent_node svc s).combined_agent_results = some t ∧
       (query_combined_agent_node svc s).snowflake_results =
         r.snowflake_results ∧
       (query_combined_agent_node svc s).rag_results = r.rag_results ∧
       (query_combined_agent_node svc s).fallback_used = false)) := by
  refine ⟨?_, ?_, ?_⟩
  · intro e he
    simp [query_combined_agent_node, check_results_node, he]
  · intro r hr hcar
    simp [query_combined_agent_node, check_results_node, hr, hcar]
  · intro r t hr hcar
    simp [query_combined_agent_node, hr, hcar]

/-- C4 witness: the null-summary success takes the failure branch with
the generic error message and a fallback route. -/
theorem C4_primary_retrieval_amended_witness :
    (query_combined_agent_node svcNullSummary
      (initialState "mba")).fallback_used = true ∧
    (query_combined_agent_node svcNullSummary
      (initialState "mba")).fallback_message = some PRIMARY_ERROR_MESSAGE ∧
    (check_results_node (query_combined_agent_node svcNullSummary
      (initialState "mba"))).should_fallback = true := by
  have h := (C4_primary_retrieval_amended svcNullSummary
      (initialState "mba")).2.1
    { combined_agent_results := none,
      snowflake_results := ["snowflake row"],
      rag_results := [] } (by rfl) (by rfl)
  exact ⟨h.2.2.2.1, h.2.2.2.2.1, h.2.2.2.2.2⟩

/-- C5: on a fallback-service success the stage stores exactly one
record tagged `source = "web_search_fallback"`, sets
`fallback_used = true` and the fixed explanatory message; on failure it
stores the empty sequence and sets `fallback_used = false`. -/
theorem C5_fallback_stage (svc : Services) (s : RecommendationState) :
    (∀ r, svc.webSearch s.user_query = .ok r →
      ((query_web_node svc s).web_results =
         [{ text := r.response,
            metadata := { source := "web_search_fallback",
                          results_analyzed := r.results_analyzed } }] ∧
       (query_web_node svc s).fallback_used = true ∧
       (query_web_node svc s).fallback_message =
         some WEB_FALLBACK_MESSAGE)) ∧
    (∀ e, svc.webSearch s.user_query = .error e →
      ((query_web_node svc s).web_results = [] ∧
       (query_web_node svc s).fallback_used = false)) := by
  constructor
  · intro r hr
    simp [query_web_node, hr]
  · intro e he
    simp [query_web_node, he]

/-- C5 witness: a succeeding fallback produces the single tagged record
with the fixed message, and a failing one produces the empty sequence
with `fallback_used = false`. -/
theorem C5_fallback_stage_witness :
    (query_web_node svcPrimaryFails stBothFail).fallback_used = true ∧
    (query_web_node svcBothFail stBothFail).fallback_used = false := by
  have h1 := (C5_fallback_stage svcPrimaryFails stBothFail).1
    { response := "web answer", results_analyzed := 3 } (by rfl)
  have h2 := (C5_fallback_stage svcBothFail stBothFail).2 "web down" (by rfl)
  exact ⟨h1.2.1, h2.2⟩

/-- C10: the compiled output always carries the query, combined summary
and both result sets; the `fallback_message` key is present exactly when
`fallback_used` is true, and when it is false the `web` field is the
empty sequence and no `fallback_message` key exists. -/
theorem C10_compile_shape (s : RecommendationState) :
    ∃ out, (compile_results s).final_output = some out ∧
      out.query = s.user_query ∧
      out.combined_output = s.combined_agent_results ∧
      out.snowflake = s.snowflake_results ∧
      out.rag = s.rag_results ∧
      out.fallback_used = s.fallback_used ∧
      (out.fallback_message.isSome = out.fallback_used) ∧
      (out.fallback_used = false → out.web = [] ∧ out.fallback_message = none) := by
  by_cases hf : s.fallback_used = true
  · refine ⟨{ query := s.user_query,
              combined_output := s.combined_agent_results,
              snowflake := s.snowflake_results,
              rag := s.rag_results,
              web := s.web_results,
              fallback_used := true,
              fallback_message := some s.fallback_message },
      ?_, rfl, rfl, rfl, rfl, hf.symm, rfl, ?_⟩
    · simp [compile_results, hf]
    · intro hcontra
      exact absurd hcontra (by simp)
  · simp only [Bool.not_eq_true] at hf
    refine ⟨{ query := s.user_query,
              combined_output := s.combined_agent_results,
              snowflake := s.snowflake_results,
              rag := s.rag_results,
              web := [],
              fallback_used := false,
              fallback_message := none },
      ?_, rfl, rfl, rfl, rfl, hf.symm, rfl, fun _ => ⟨rfl, rfl⟩⟩
    simp [compile_results, hf]

/-- C10 witness: the compile stage applied to the no-fallback terminal
state yields an output with the always-present fields, no
`fallback_message` key, and an empty `web` sequence. -/
theorem C10_compile_shape_witness :
    ∃ out, (compile_results stAllOk).final_output = some out ∧
      out.query = stAllOk.user_query ∧
      out.combined_output = stAllOk.combined_agent_results ∧
      out.snowflake = stAllOk.snowflake_results ∧
      out.rag = stAllOk.rag_results ∧
      out.fallback_used = stAllOk.fallback_used ∧
      (out.fallback_message.isSome = out.fallback_used) ∧
      (out.fallback_used = false → out.web = [] ∧ out.fallback_message = none) :=
  C10_compile_shape stAllOk

end MultiAgent
